import Mathlib

set_option maxRecDepth 8192

/-!
Verification of `google/oauth2/gdch_credentials.py` (GDC-H credentials).

The module implements a two-step credential refresh:
step 1 obtains a bootstrap (k8s) token over mTLS from the k8s token
endpoint; step 2 exchanges it (base64-encoded) at the AIS token endpoint
for an access token and expiry.  The two `_client` collaborators
(`_token_endpoint_request`, `_handle_refresh_grant_response`) live outside
this module and are modelled as an abstract environment.
-/

namespace GDCH

/-- JSON values, the shape of decoded response payloads. -/
inductive Json where
  | null
  | str (s : String)
  | num (n : Int)
  | arr (items : List Json)
  | obj (fields : List (String × Json))
deriving Repr

/-- Errors surfacing from a refresh: `refreshError` models
`google.auth.exceptions.RefreshError(msg, payload)`; `keyError` models a
Python `KeyError` on a dict subscript; `pyError` models any other Python
exception (e.g. `TypeError` on subscripting a non-dict, `AttributeError`
on `.encode()` of a non-string). -/
inductive AuthError where
  | refreshError (msg : String) (payload : Json)
  | keyError
  | pyError (info : String)
deriving Repr

/-- Python subscript `v[k]`: returns the value when `v` is a dict holding
key `k`; raises `KeyError` when the dict lacks the key; raises a
`TypeError` when `v` is not a dict. -/
def pySubscript (v : Json) (k : String) : Except AuthError Json :=
  match v with
  | .obj fields =>
    match fields.lookup k with
    | some w => .ok w
    | none => .error .keyError
  | _ => .error (.pyError "TypeError")

/-- `str.format` rendering of a JSON value, as used by the two `print`
calls: a string formats as itself, other values by a simple repr. -/
def Json.render : Json → String
  | .null => "None"
  | .str s => s
  | .num n => toString n
  | .arr _ => "[...]"
  | .obj _ => "\x7b...\x7d"

/-! ## Base64 and UTF-8, modelling `base64.b64encode(token.encode()).decode()` -/

/-- UTF-8 encoding of a Unicode code point `v < 0x110000`, one to four
bytes given as `Nat`s below 256 (what `str.encode()` produces per
character). -/
def utf8EncodeCp (v : Nat) : List Nat :=
  if v < 0x80 then [v]
  else if v < 0x800 then [0xC0 + v / 64, 0x80 + v % 64]
  else if v < 0x10000 then [0xE0 + v / 4096, 0x80 + v / 64 % 64, 0x80 + v % 64]
  else [0xF0 + v / 262144, 0x80 + v / 4096 % 64, 0x80 + v / 64 % 64, 0x80 + v % 64]

/-- UTF-8 byte sequence of a string (`str.encode()`). -/
def utf8Encode (s : String) : List Nat :=
  s.toList.foldr (fun c acc => utf8EncodeCp c.toNat ++ acc) []

/-- A UTF-8 continuation byte's six payload bits, `none` when the byte is
not a continuation byte. -/
def utf8Cont (b : Nat) : Option Nat :=
  if 128 ≤ b ∧ b < 192 then some (b - 128) else none

/-- Code point of a two-byte sequence led by `b`, rejecting overlong
encodings. -/
def utf8Cont2 (b b1 : Nat) : Option Nat :=
  (utf8Cont b1).bind fun x =>
    let v := (b - 192) * 64 + x
    if 128 ≤ v then some v else none

/-- Code point of a three-byte sequence led by `b`, rejecting overlong
encodings. -/
def utf8Cont3 (b b1 b2 : Nat) : Option Nat :=
  (utf8Cont b1).bind fun x => (utf8Cont b2).bind fun y =>
    let v := (b - 224) * 4096 + x * 64 + y
    if 2048 ≤ v then some v else none

/-- Code point of a four-byte sequence led by `b`, rejecting overlong
encodings. -/
def utf8Cont4 (b b1 b2 b3 : Nat) : Option Nat :=
  (utf8Cont b1).bind fun x => (utf8Cont b2).bind fun y => (utf8Cont b3).bind fun z =>
    let v := (b - 240) * 262144 + x * 4096 + y * 64 + z
    if 65536 ≤ v then some v else none

/-- Decode one UTF-8 code point from the front of a byte list, returning
it with the remaining bytes; `none` on empty, malformed, overlong or
truncated input. -/
def utf8DecodeCp : List Nat → Option (Nat × List Nat)
  | [] => none
  | b :: bs =>
    if b < 128 then some (b, bs)
    else if b < 192 then none
    else if b < 224 then
      match bs with
      | b1 :: bs2 => (utf8Cont2 b b1).map fun v => (v, bs2)
      | [] => none
    else if b < 240 then
      match bs with
      | b1 :: b2 :: bs3 => (utf8Cont3 b b1 b2).map fun v => (v, bs3)
      | _ => none
    else if b < 248 then
      match bs with
      | b1 :: b2 :: b3 :: bs4 => (utf8Cont4 b b1 b2 b3).map fun v => (v, bs4)
      | _ => none
    else none

/-- Fuelled decoding loop: each step consumes at least one byte, so fuel
equal to the list length always suffices. -/
def utf8DecodeLoop : Nat → List Nat → Option (List Char)
  | _, [] => some []
  | 0, _ :: _ => none
  | fuel + 1, b :: bs =>
    match utf8DecodeCp (b :: bs) with
    | some (v, rest) => (utf8DecodeLoop fuel rest).map (Char.ofNat v :: ·)
    | none => none

/-- Modelled from the spec: a UTF-8 decoder (`bytes.decode()`), the
inverse needed to state the round-trip property; rejects malformed,
overlong and truncated sequences. -/
def utf8Decode (l : List Nat) : Option (List Char) := utf8DecodeLoop l.length l

/-- The standard base64 alphabet. -/
def b64Chars : List Char :=
  "ABCDEFGHIJKLMNOPQRSTUVWXYZabcdefghijklmnopqrstuvwxyz0123456789+/".toList

/-- The alphabet character for a sextet value. -/
def b64Char (n : Nat) : Char := b64Chars.getD n 'A'

/-- The sextet value of an alphabet character, `none` for characters
outside the alphabet. -/
def b64Index (c : Char) : Option Nat := b64Chars.findIdx? (fun x => x == c)

/-- `base64.b64encode` over a byte list (bytes as `Nat`s below 256),
producing the standard padded encoding. -/
def b64encode : List Nat → List Char
  | b0 :: b1 :: b2 :: rest =>
    let n := b0 * 65536 + b1 * 256 + b2
    b64Char (n / 262144) :: b64Char (n / 4096 % 64) :: b64Char (n / 64 % 64) ::
      b64Char (n % 64) :: b64encode rest
  | [b0, b1] =>
    let n := b0 * 65536 + b1 * 256
    [b64Char (n / 262144), b64Char (n / 4096 % 64), b64Char (n / 64 % 64), '=']
  | [b0] =>
    let n := b0 * 65536
    [b64Char (n / 262144), b64Char (n / 4096 % 64), '=', '=']
  | [] => []

/-- Modelled from the spec: a base64 decoder (`base64.b64decode`), the
inverse needed to state the round-trip property. -/
def b64decode : List Char → Option (List Nat)
  | [] => some []
  | c0 :: c1 :: c2 :: c3 :: rest =>
    match b64Index c0, b64Index c1 with
    | some n0, some n1 =>
      if c2 = '=' then
        if c3 = '=' ∧ rest = [] then some [n0 * 4 + n1 / 16]
        else none
      else
        match b64Index c2 with
        | some n2 =>
          if c3 = '=' then
            if rest = [] then
              let n := n0 * 262144 + n1 * 4096 + n2 * 64
              some [n / 65536, n / 256 % 256]
            else none
          else
            match b64Index c3 with
            | some n3 =>
              let n := n0 * 262144 + n1 * 4096 + n2 * 64 + n3
              (b64decode rest).map fun tl => n / 65536 :: n / 256 % 256 :: n % 256 :: tl
            | none => none
        | none => none
    | _, _ => none
  | _ => none

/-- `base64.b64encode(s.encode()).decode()`: base64 of the UTF-8 bytes of
`s`, as a string (line 95 of the source). -/
def b64encodeStr (s : String) : String := ⟨b64encode (utf8Encode s)⟩

/-- Modelled from the spec: decoding an encoded subject token back to the
original string (`base64.b64decode(t).decode()`). -/
def b64decodeStr (t : String) : Option String :=
  (b64decode t.toList).bind fun bs => (utf8Decode bs).map fun cs => ⟨cs⟩

/-! ## Module-level constants (`gdch_credentials.py` lines 28-31) -/

def TOKEN_EXCHANGE_TYPE : String := "urn:ietf:params:oauth:token-type:token-exchange"

def ACCESS_TOKEN_TOKEN_TYPE : String := "urn:ietf:params:oauth:token-type:access_token"

def JWT_TOKEN_TYPE : String := "urn:ietf:params:oauth:token-type:jwt"

def SERVICE_ACCOUNT_TOKEN_TYPE : String := "urn:k8s:params:oauth:token-type:serviceaccount"

/-- One invocation of the token-endpoint collaborator, recording the
positional arguments the module passes to
`_client._token_endpoint_request` after the transport: URL, request body,
headers, the response-shape flag, the optional client certificate/key
pair, the CA path, and the optional expected-status override. -/
structure TokenEndpointCall where
  url : String
  body : List (String × String)
  headers : Option (List (String × String))
  useJson : Bool
  cert : Option (String × String)
  caPath : String
  expectedStatus : Option Nat
deriving Repr, DecidableEq

/-- Modelled from the spec: the two collaborator functions consumed from
`google.oauth2._client`, which is not part of this module.  The spec
describes them as a generic "send token-endpoint request" function
returning parsed JSON (or failing), and a "handle refresh grant response"
function extracting `(token, refreshToken, expiry, extra)` from a
standard OAuth token response (or failing). -/
structure Env where
  tokenEndpointRequest : TokenEndpointCall → Except AuthError Json
  handleRefreshGrantResponse : Json → Except AuthError (String × Option String × Option Nat × Json)

/-- The `Credentials` class: immutable configuration set by `__init__`
plus the token state (`token`, `expiry`) inherited from the base
`Credentials` class, which `__init__` initialises to `None`. -/
structure Credentials where
  k8s_ca_cert_path : String
  k8s_cert_path : String
  k8s_key_path : String
  k8s_token_endpoint : String
  ais_ca_cert_path : String
  ais_token_endpoint : String
  audience : String
  quota_project_id : Option String
  token : Option String
  expiry : Option Nat
deriving Repr, DecidableEq

/-- `Credentials.__init__`: stores the eight configuration arguments;
`super().__init__()` leaves `token` and `expiry` as `None`. -/
def Credentials.init (k8s_ca_cert_path k8s_cert_path k8s_key_path
    k8s_token_endpoint ais_ca_cert_path ais_token_endpoint audience : String)
    (quota_project_id : Option String) : Credentials :=
  { k8s_ca_cert_path, k8s_cert_path, k8s_key_path, k8s_token_endpoint,
    ais_ca_cert_path, ais_token_endpoint, audience, quota_project_id,
    token := none, expiry := none }

/-- The call `_make_k8s_token_request` issues: mTLS request to the k8s
token endpoint with empty body, no headers, `use_json=True`, the
configured client certificate/key pair and CA path, expecting
`http_client.CREATED` (201). -/
def Credentials.k8s_call (c : Credentials) : TokenEndpointCall :=
  { url := c.k8s_token_endpoint
    body := []
    headers := none
    useJson := true
    cert := some (c.k8s_cert_path, c.k8s_key_path)
    caPath := c.k8s_ca_cert_path
    expectedStatus := some 201 }

/-- The AIS request body built by `_make_ais_token_request`, where
`encoded` is the (already base64-encoded) k8s token. -/
def Credentials.ais_request_body (c : Credentials) (encoded : String) :
    List (String × String) :=
  [("grant_type", TOKEN_EXCHANGE_TYPE),
   ("audience", c.audience),
   ("requested_token_type", ACCESS_TOKEN_TOKEN_TYPE),
   ("subject_token", encoded),
   ("subject_token_type", SERVICE_ACCOUNT_TOKEN_TYPE)]

/-- The call `_make_ais_token_request` issues: request to the AIS token
endpoint with the exchange body, no headers, `use_json=True`, no client
certificate, the configured AIS CA path, and no expected-status override. -/
def Credentials.ais_call (c : Credentials) (encoded : String) : TokenEndpointCall :=
  { url := c.ais_token_endpoint
    body := c.ais_request_body encoded
    headers := none
    useJson := true
    cert := none
    caPath := c.ais_ca_cert_path
    expectedStatus := none }

/-- Result of one step (or of `refresh`): the returned value or raised
error, the lines printed to stdout, and the token-endpoint calls sent. -/
structure StepOut (α : Type) where
  result : Except AuthError α
  printed : List String
  calls : List TokenEndpointCall
deriving Repr

/-- `Credentials._make_k8s_token_request`: sends the mTLS bootstrap call,
then reads `k8s_response_data["status"]["token"]`; a `KeyError` there is
converted to `RefreshError("No access token in k8s token response.",
k8s_response_data)`; on success the k8s token is printed and returned. -/
def Credentials.make_k8s_token_request (c : Credentials) (env : Env) : StepOut Json :=
  match env.tokenEndpointRequest c.k8s_call with
  | .error e => ⟨.error e, [], [c.k8s_call]⟩
  | .ok k8s_response_data =>
    match (pySubscript k8s_response_data "status").bind (pySubscript · "token") with
    | .ok k8s_token =>
      ⟨.ok k8s_token, ["received k8s token: " ++ k8s_token.render], [c.k8s_call]⟩
    | .error .keyError =>
      ⟨.error (.refreshError "No access token in k8s token response." k8s_response_data),
       [], [c.k8s_call]⟩
    | .error e => ⟨.error e, [], [c.k8s_call]⟩

/-- `Credentials._make_ais_token_request`: base64-encodes the k8s token
(`.encode()` requires a string; any other value raises an
`AttributeError` before any request is sent), sends the exchange call,
parses the response with the refresh-grant collaborator, prints the
access token and returns `(token, expiry)`, discarding the refresh token
and the extra data. -/
def Credentials.make_ais_token_request (c : Credentials) (k8s_token : Json)
    (env : Env) : StepOut (String × Option Nat) :=
  match k8s_token with
  | .str s =>
    let encoded := b64encodeStr s
    match env.tokenEndpointRequest (c.ais_call encoded) with
    | .error e => ⟨.error e, [], [c.ais_call encoded]⟩
    | .ok ais_response_data =>
      match env.handleRefreshGrantResponse ais_response_data with
      | .error e => ⟨.error e, [], [c.ais_call encoded]⟩
      | .ok (ais_token, _, ais_expiry, _) =>
        ⟨.ok (ais_token, ais_expiry), ["received ais token: " ++ ais_token],
         [c.ais_call encoded]⟩
  | _ => ⟨.error (.pyError "AttributeError"), [], []⟩

/-- Outcome of `refresh`: the credential afterwards (unchanged unless the
refresh succeeded), the raised error if any, the printed lines, and the
token-endpoint calls sent. -/
structure RefreshOut where
  cred : Credentials
  result : Except AuthError Unit
  printed : List String
  calls : List TokenEndpointCall
deriving Repr

/-- `Credentials.refresh`: step 1 then step 2; `self.token, self.expiry`
are assigned together only after both steps succeed; a failure in either
step propagates and leaves the credential unchanged. -/
def Credentials.refresh (c : Credentials) (env : Env) : RefreshOut :=
  let s1 := c.make_k8s_token_request env
  match s1.result with
  | .error e => ⟨c, .error e, s1.printed, s1.calls⟩
  | .ok k8s_token =>
    let s2 := c.make_ais_token_request k8s_token env
    match s2.result with
    | .error e => ⟨c, .error e, s1.printed ++ s2.printed, s1.calls ++ s2.calls⟩
    | .ok (tok, exp) =>
      ⟨{ c with token := some tok, expiry := exp }, .ok (),
       s1.printed ++ s2.printed, s1.calls ++ s2.calls⟩

/-- `Credentials.with_audience`: a fresh instance built through
`__init__` with the same configuration and the given audience. -/
def Credentials.with_audience (c : Credentials) (audience : String) : Credentials :=
  Credentials.init c.k8s_ca_cert_path c.k8s_cert_path c.k8s_key_path
    c.k8s_token_endpoint c.ais_ca_cert_path c.ais_token_endpoint audience
    c.quota_project_id

/-- `Credentials.with_quota_project`: a fresh instance built through
`__init__` with the same configuration and the given quota project id. -/
def Credentials.with_quota_project (c : Credentials)
    (quota_project_id : Option String) : Credentials :=
  Credentials.init c.k8s_ca_cert_path c.k8s_cert_path c.k8s_key_path
    c.k8s_token_endpoint c.ais_ca_cert_path c.ais_token_endpoint c.audience
    quota_project_id

/-! ## Concrete fixtures used to exercise the theorems -/

/-- A concrete credential configuration. -/
def testCred : Credentials :=
  Credentials.init "k8s-ca.pem" "k8s-cert.pem" "k8s-key.pem"
    "https://k8s.example/token" "ais-ca.pem" "https://ais.example/token"
    "test-aud" (some "test-qp")

/-- A bootstrap response body holding a token at `status.token`. -/
def testBootBody : Json := .obj [("status", .obj [("token", .str "boot-abc")])]

/-- A bootstrap response body whose `status` object lacks `token`. -/
def testBootBodyNoToken : Json := .obj [("status", .obj [])]

/-- A standard OAuth token response body. -/
def testExchangeBody : Json :=
  .obj [("access_token", .str "final-xyz"), ("expires_in", .num 3600),
        ("token_type", .str "Bearer")]

/-- Environment in which both endpoints answer successfully (the k8s call
is recognised by its expected-status override). -/
def testEnv : Env where
  tokenEndpointRequest call :=
    if call.expectedStatus = some 201 then .ok testBootBody else .ok testExchangeBody
  handleRefreshGrantResponse _ := .ok ("final-xyz", none, some 3600, .null)

/-- Environment whose bootstrap response lacks `status.token`. -/
def testEnvNoToken : Env where
  tokenEndpointRequest _ := .ok testBootBodyNoToken
  handleRefreshGrantResponse _ := .ok ("final-xyz", none, some 3600, .null)

/-- Environment in which the bootstrap transport call fails. -/
def testEnvBootFail : Env where
  tokenEndpointRequest _ := .error (.pyError "connection refused")
  handleRefreshGrantResponse _ := .ok ("t", none, none, .null)

/-- Environment in which the exchange transport call fails. -/
def testEnvAisFail : Env where
  tokenEndpointRequest call :=
    if call.expectedStatus = some 201 then .ok testBootBody
    else .error (.refreshError "invalid_grant" .null)
  handleRefreshGrantResponse _ := .ok ("t", none, none, .null)

/-- Environment in which the refresh-grant parsing collaborator fails. -/
def testEnvGrantFail : Env where
  tokenEndpointRequest call :=
    if call.expectedStatus = some 201 then .ok testBootBody else .ok testExchangeBody
  handleRefreshGrantResponse _ := .error (.pyError "malformed")

/-! ## Helper lemmas -/

/-- Step 1 always sends exactly the single mTLS bootstrap call. -/
theorem make_k8s_calls (c : Credentials) (env : Env) :
    (c.make_k8s_token_request env).calls = [c.k8s_call] := by
  unfold Credentials.make_k8s_token_request
  split
  · rfl
  · split <;> rfl

/-- Step 2, given a string k8s token, sends exactly the single exchange
call carrying the base64-encoded token. -/
theorem make_ais_calls (c : Credentials) (s : String) (env : Env) :
    (c.make_ais_token_request (.str s) env).calls = [c.ais_call (b64encodeStr s)] := by
  simp only [Credentials.make_ais_token_request]
  split
  · rfl
  · split <;> rfl

/-- Reduction of step 1 when the transport answers and `status.token` is
present. -/
theorem make_k8s_ok (c : Credentials) (env : Env) (data t : Json)
    (h1 : env.tokenEndpointRequest c.k8s_call = .ok data)
    (h2 : (pySubscript data "status").bind (pySubscript · "token") = .ok t) :
    c.make_k8s_token_request env =
      ⟨.ok t, ["received k8s token: " ++ t.render], [c.k8s_call]⟩ := by
  simp only [Credentials.make_k8s_token_request, h1, h2]

/-- Reduction of step 1 when the `status.token` lookup raises `KeyError`. -/
theorem make_k8s_keyerr (c : Credentials) (env : Env) (data : Json)
    (h1 : env.tokenEndpointRequest c.k8s_call = .ok data)
    (h2 : (pySubscript data "status").bind (pySubscript · "token") = .error .keyError) :
    c.make_k8s_token_request env =
      ⟨.error (.refreshError "No access token in k8s token response." data),
       [], [c.k8s_call]⟩ := by
  simp only [Credentials.make_k8s_token_request, h1, h2]

/-- Reduction of step 1 when the transport collaborator fails. -/
theorem make_k8s_err (c : Credentials) (env : Env) (e : AuthError)
    (h1 : env.tokenEndpointRequest c.k8s_call = .error e) :
    c.make_k8s_token_request env = ⟨.error e, [], [c.k8s_call]⟩ := by
  simp only [Credentials.make_k8s_token_request, h1]

/-- Reduction of step 2 when both collaborators succeed. -/
theorem make_ais_ok (c : Credentials) (s : String) (env : Env) (d : Json)
    (tok : String) (rt : Option String) (exp : Option Nat) (extra : Json)
    (h3 : env.tokenEndpointRequest (c.ais_call (b64encodeStr s)) = .ok d)
    (h4 : env.handleRefreshGrantResponse d = .ok (tok, rt, exp, extra)) :
    c.make_ais_token_request (.str s) env =
      ⟨.ok (tok, exp), ["received ais token: " ++ tok], [c.ais_call (b64encodeStr s)]⟩ := by
  simp only [Credentials.make_ais_token_request, h3, h4]

/-- Reduction of step 2 when the exchange transport call fails. -/
theorem make_ais_err1 (c : Credentials) (s : String) (env : Env) (e : AuthError)
    (h3 : env.tokenEndpointRequest (c.ais_call (b64encodeStr s)) = .error e) :
    c.make_ais_token_request (.str s) env =
      ⟨.error e, [], [c.ais_call (b64encodeStr s)]⟩ := by
  simp only [Credentials.make_ais_token_request, h3]

/-- Reduction of step 2 when the refresh-grant parser fails. -/
theorem make_ais_err2 (c : Credentials) (s : String) (env : Env) (d : Json)
    (e : AuthError)
    (h3 : env.tokenEndpointRequest (c.ais_call (b64encodeStr s)) = .ok d)
    (h4 : env.handleRefreshGrantResponse d = .error e) :
    c.make_ais_token_request (.str s) env =
      ⟨.error e, [], [c.ais_call (b64encodeStr s)]⟩ := by
  simp only [Credentials.make_ais_token_request, h3, h4]

/-- Full reduction of a successful `refresh`. -/
theorem refresh_ok (c : Credentials) (env : Env) (data d : Json) (s tok : String)
    (rt : Option String) (exp : Option Nat) (extra : Json)
    (h1 : env.tokenEndpointRequest c.k8s_call = .ok data)
    (h2 : (pySubscript data "status").bind (pySubscript · "token") = .ok (.str s))
    (h3 : env.tokenEndpointRequest (c.ais_call (b64encodeStr s)) = .ok d)
    (h4 : env.handleRefreshGrantResponse d = .ok (tok, rt, exp, extra)) :
    c.refresh env =
      ⟨{ c with token := some tok, expiry := exp }, .ok (),
       ["received k8s token: " ++ s, "received ais token: " ++ tok],
       [c.k8s_call, c.ais_call (b64encodeStr s)]⟩ := by
  have e1 := make_k8s_ok c env data (.str s) h1 h2
  have e2 := make_ais_ok c s env d tok rt exp extra h3 h4
  simp only [Credentials.refresh, e1, e2, Json.render]
  rfl

/-! ## Base64 and UTF-8 round-trip lemmas -/

/-- Each sextet's alphabet character decodes back to the sextet. -/
theorem b64Index_b64Char : ∀ n, n < 64 → b64Index (b64Char n) = some n := by decide

/-- Alphabet characters are never the padding character. -/
theorem b64Char_ne_pad : ∀ n, n < 64 → b64Char n ≠ '=' := by decide

/-- Decoding a full (unpadded) encoded quad prepends its three bytes. -/
theorem b64decode_quad (b0 b1 b2 : Nat) (h0 : b0 < 256) (h1 : b1 < 256) (h2 : b2 < 256)
    (l : List Char) (tl : List Nat) (htl : b64decode l = some tl) :
    b64decode (b64Char ((b0 * 65536 + b1 * 256 + b2) / 262144) ::
               b64Char ((b0 * 65536 + b1 * 256 + b2) / 4096 % 64) ::
               b64Char ((b0 * 65536 + b1 * 256 + b2) / 64 % 64) ::
               b64Char ((b0 * 65536 + b1 * 256 + b2) % 64) :: l) =
      some (b0 :: b1 :: b2 :: tl) := by
  have e0 := b64Index_b64Char ((b0 * 65536 + b1 * 256 + b2) / 262144) (by omega)
  have e1 := b64Index_b64Char ((b0 * 65536 + b1 * 256 + b2) / 4096 % 64) (by omega)
  have e2 := b64Index_b64Char ((b0 * 65536 + b1 * 256 + b2) / 64 % 64) (by omega)
  have e3 := b64Index_b64Char ((b0 * 65536 + b1 * 256 + b2) % 64) (by omega)
  have ne2 := b64Char_ne_pad ((b0 * 65536 + b1 * 256 + b2) / 64 % 64) (by omega)
  have ne3 := b64Char_ne_pad ((b0 * 65536 + b1 * 256 + b2) % 64) (by omega)
  rw [b64decode.eq_def]
  simp only [e0, e1, e2, e3, ne2, ne3, htl, Option.map_some', ite_false, ite_true,
    eq_self_iff_true, if_false, Option.some.injEq, List.cons.injEq]
  exact ⟨by omega, by omega, by omega, trivial⟩

/-- Decoding a two-byte final chunk (one padding character). -/
theorem b64decode_pad1 (b0 b1 : Nat) (h0 : b0 < 256) (h1 : b1 < 256) :
    b64decode [b64Char ((b0 * 65536 + b1 * 256) / 262144),
               b64Char ((b0 * 65536 + b1 * 256) / 4096 % 64),
               b64Char ((b0 * 65536 + b1 * 256) / 64 % 64), '='] =
      some [b0, b1] := by
  have e0 := b64Index_b64Char ((b0 * 65536 + b1 * 256) / 262144) (by omega)
  have e1 := b64Index_b64Char ((b0 * 65536 + b1 * 256) / 4096 % 64) (by omega)
  have e2 := b64Index_b64Char ((b0 * 65536 + b1 * 256) / 64 % 64) (by omega)
  have ne2 := b64Char_ne_pad ((b0 * 65536 + b1 * 256) / 64 % 64) (by omega)
  rw [b64decode.eq_def]
  simp only [e0, e1, e2, ne2, ite_false, ite_true, eq_self_iff_true, if_false,
    Option.some.injEq, List.cons.injEq]
  exact ⟨by omega, by omega, trivial⟩

/-- Decoding a one-byte final chunk (two padding characters). -/
theorem b64decode_pad2 (b0 : Nat) (h0 : b0 < 256) :
    b64decode [b64Char ((b0 * 65536) / 262144),
               b64Char ((b0 * 65536) / 4096 % 64), '=', '='] =
      some [b0] := by
  have e0 := b64Index_b64Char ((b0 * 65536) / 262144) (by omega)
  have e1 := b64Index_b64Char ((b0 * 65536) / 4096 % 64) (by omega)
  rw [b64decode.eq_def]
  simp only [e0, e1, ite_true, eq_self_iff_true, and_true, true_and,
    Option.some.injEq, List.cons.injEq]
  omega

/-- Base64 decoding inverts base64 encoding on byte lists. -/
theorem b64decode_b64encode : ∀ bs : List Nat, (∀ b ∈ bs, b < 256) →
    b64decode (b64encode bs) = some bs := by
  intro bs
  induction bs using b64encode.induct with
  | case1 b0 b1 b2 rest ih =>
    intro hb
    simp only [b64encode]
    exact b64decode_quad b0 b1 b2 (hb b0 (by simp)) (hb b1 (by simp)) (hb b2 (by simp))
      (b64encode rest) rest (ih fun b h => hb b (by simp [h]))
  | case2 b0 b1 =>
    intro hb
    simp only [b64encode]
    exact b64decode_pad1 b0 b1 (hb b0 (by simp)) (hb b1 (by simp))
  | case3 b0 =>
    intro hb
    simp only [b64encode]
    exact b64decode_pad2 b0 (hb b0 (by simp))
  | case4 => intro _; rfl

/-- A Lean character's code point is below 0x110000. -/
theorem char_toNat_lt (c : Char) : c.toNat < 1114112 := by
  have h := c.valid
  have e : c.toNat = c.val.toNat := rfl
  rcases h with h | h <;> omega

/-- A continuation byte decodes to its payload. -/
theorem utf8Cont_ok (x : Nat) (h : x < 64) : utf8Cont (128 + x) = some x := by
  unfold utf8Cont
  rw [if_pos ⟨by omega, by omega⟩]
  congr 1
  omega

/-- The two encoded continuation values of a two-byte code point combine
back to it. -/
theorem utf8Cont2_encode (v : Nat) (h1 : 128 ≤ v) (h2 : v < 2048) :
    utf8Cont2 (192 + v / 64) (128 + v % 64) = some v := by
  have hc := utf8Cont_ok (v % 64) (by omega)
  simp only [utf8Cont2, hc, Option.some_bind]
  have hcond : 128 ≤ (192 + v / 64 - 192) * 64 + v % 64 := by omega
  rw [if_pos hcond]
  congr 1
  omega

/-- The three encoded values of a three-byte code point combine back. -/
theorem utf8Cont3_encode (v : Nat) (h1 : 2048 ≤ v) (h2 : v < 65536) :
    utf8Cont3 (224 + v / 4096) (128 + v / 64 % 64) (128 + v % 64) = some v := by
  have hcA := utf8Cont_ok (v / 64 % 64) (by omega)
  have hcB := utf8Cont_ok (v % 64) (by omega)
  simp only [utf8Cont3, hcA, hcB, Option.some_bind]
  have hcond : 2048 ≤ (224 + v / 4096 - 224) * 4096 + v / 64 % 64 * 64 + v % 64 := by omega
  rw [if_pos hcond]
  congr 1
  omega

/-- The four encoded values of a four-byte code point combine back. -/
theorem utf8Cont4_encode (v : Nat) (h1 : 65536 ≤ v) (h2 : v < 1114112) :
    utf8Cont4 (240 + v / 262144) (128 + v / 4096 % 64) (128 + v / 64 % 64)
      (128 + v % 64) = some v := by
  have hcA := utf8Cont_ok (v / 4096 % 64) (by omega)
  have hcB := utf8Cont_ok (v / 64 % 64) (by omega)
  have hcC := utf8Cont_ok (v % 64) (by omega)
  simp only [utf8Cont4, hcA, hcB, hcC, Option.some_bind]
  have hcond : 65536 ≤ (240 + v / 262144 - 240) * 262144 + v / 4096 % 64 * 4096
      + v / 64 % 64 * 64 + v % 64 := by omega
  rw [if_pos hcond]
  congr 1
  omega

/-- Decoding one code point from the front of an encoded byte sequence
recovers the code point and the remaining bytes. -/
theorem utf8DecodeCp_encode (v : Nat) (hv : v < 1114112) (rest : List Nat) :
    utf8DecodeCp (utf8EncodeCp v ++ rest) = some (v, rest) := by
  unfold utf8EncodeCp
  rcases Nat.lt_or_ge v 128 with h1 | h1
  · rw [if_pos h1]
    simp only [List.cons_append, List.nil_append, utf8DecodeCp]
    rw [if_pos h1]
  · rw [if_neg (by omega)]
    rcases Nat.lt_or_ge v 2048 with h2 | h2
    · rw [if_pos h2]
      simp only [List.cons_append, List.nil_append, utf8DecodeCp,
        utf8Cont2_encode v h1 h2, Option.map_some']
      have c1 : ¬(192 + v / 64 < 128) := by omega
      have c2 : ¬(192 + v / 64 < 192) := by omega
      have c3 : 192 + v / 64 < 224 := by omega
      rw [if_neg c1, if_neg c2, if_pos c3]
    · rw [if_neg (by omega)]
      rcases Nat.lt_or_ge v 65536 with h3 | h3
      · rw [if_pos h3]
        simp only [List.cons_append, List.nil_append, utf8DecodeCp,
          utf8Cont3_encode v h2 h3, Option.map_some']
        have c1 : ¬(224 + v / 4096 < 128) := by omega
        have c2 : ¬(224 + v / 4096 < 192) := by omega
        have c3 : ¬(224 + v / 4096 < 224) := by omega
        have c4 : 224 + v / 4096 < 240 := by omega
        rw [if_neg c1, if_neg c2, if_neg c3, if_pos c4]
      · rw [if_neg (by omega)]
        simp only [List.cons_append, List.nil_append, utf8DecodeCp,
          utf8Cont4_encode v h3 hv, Option.map_some']
        have c1 : ¬(240 + v / 262144 < 128) := by omega
        have c2 : ¬(240 + v / 262144 < 192) := by omega
        have c3 : ¬(240 + v / 262144 < 224) := by omega
        have c4 : ¬(240 + v / 262144 < 240) := by omega
        have c5 : 240 + v / 262144 < 248 := by omega
        rw [if_neg c1, if_neg c2, if_neg c3, if_neg c4, if_pos c5]


/-- Encoded code points are nonempty byte lists. -/
theorem utf8EncodeCp_ne_nil (v : Nat) : ∃ b bs, utf8EncodeCp v = b :: bs := by
  unfold utf8EncodeCp
  repeat' split
  all_goals exact ⟨_, _, rfl⟩

/-- All bytes of an encoded code point are below 256. -/
theorem utf8EncodeCp_lt256 (v : Nat) (hv : v < 1114112) :
    ∀ b ∈ utf8EncodeCp v, b < 256 := by
  intro b hb
  unfold utf8EncodeCp at hb
  repeat' split at hb
  all_goals fin_cases hb <;> omega

/-- All bytes of a UTF-8 encoded string are below 256. -/
theorem utf8Encode_lt256 (s : String) : ∀ b ∈ utf8Encode s, b < 256 := by
  unfold utf8Encode
  generalize s.toList = cs
  induction cs with
  | nil => intro b hb; simp at hb
  | cons c cs ih =>
    intro b hb
    simp only [List.foldr_cons, List.mem_append] at hb
    rcases hb with h | h
    · exact utf8EncodeCp_lt256 c.toNat (char_toNat_lt c) b h
    · exact ih b h

/-- The decoding loop inverts encoding, given enough fuel. -/
theorem utf8DecodeLoop_encode : ∀ (cs : List Char) (fuel : Nat),
    (cs.foldr (fun c acc => utf8EncodeCp c.toNat ++ acc) []).length ≤ fuel →
    utf8DecodeLoop fuel (cs.foldr (fun c acc => utf8EncodeCp c.toNat ++ acc) []) =
      some cs := by
  intro cs
  induction cs with
  | nil => intro fuel _; cases fuel <;> rfl
  | cons c cs ih =>
    intro fuel hf
    obtain ⟨b, ebs, he⟩ := utf8EncodeCp_ne_nil c.toNat
    have hcp := utf8DecodeCp_encode c.toNat (char_toNat_lt c)
      (cs.foldr (fun c acc => utf8EncodeCp c.toNat ++ acc) [])
    simp only [List.foldr_cons] at hf ⊢
    rw [he] at hcp hf ⊢
    rw [List.cons_append] at hcp hf ⊢
    cases fuel with
    | zero => simp at hf
    | succ f =>
      simp only [utf8DecodeLoop, hcp]
      have hlen : (cs.foldr (fun c acc => utf8EncodeCp c.toNat ++ acc) []).length ≤ f := by
        simp only [List.length_cons, List.length_append] at hf
        omega
      rw [ih f hlen]
      simp only [Option.map_some', Char.ofNat_toNat]

/-- UTF-8 decoding inverts UTF-8 encoding. -/
theorem utf8Decode_utf8Encode (s : String) :
    utf8Decode (utf8Encode s) = some s.toList := by
  unfold utf8Decode utf8Encode
  exact utf8DecodeLoop_encode s.toList _ le_rfl

/-- Decoding the encoded subject token recovers the original string. -/
theorem b64decodeStr_b64encodeStr (s : String) :
    b64decodeStr (b64encodeStr s) = some s := by
  unfold b64decodeStr b64encodeStr
  have h1 : (⟨b64encode (utf8Encode s)⟩ : String).toList = b64encode (utf8Encode s) := rfl
  rw [h1, b64decode_b64encode (utf8Encode s) (utf8Encode_lt256 s)]
  simp only [Option.some_bind]
  rw [utf8Decode_utf8Encode]
  simp only [Option.map_some']
  rfl


/-! ## Claim theorems -/

/-- C1: for every bootstrap response whose body holds `status.token` and
every exchange response from which the refresh-grant collaborator
extracts an access token and an expiry, `refresh` sets the credential's
token to exactly that access token and its expiry to exactly that expiry,
discarding the collaborator's refresh-token and extra fields (the
conclusion does not depend on `rt` or `extra`). -/
theorem refresh_sets_token_and_expiry (c : Credentials) (env : Env)
    (data d : Json) (s tok : String) (rt : Option String) (exp : Option Nat)
    (extra : Json)
    (h1 : env.tokenEndpointRequest c.k8s_call = .ok data)
    (h2 : (pySubscript data "status").bind (pySubscript · "token") = .ok (.str s))
    (h3 : env.tokenEndpointRequest (c.ais_call (b64encodeStr s)) = .ok d)
    (h4 : env.handleRefreshGrantResponse d = .ok (tok, rt, exp, extra)) :
    (c.refresh env).cred = { c with token := some tok, expiry := exp } ∧
    (c.refresh env).result = .ok () := by
  rw [refresh_ok c env data d s tok rt exp extra h1 h2 h3 h4]
  exact ⟨rfl, rfl⟩

/-- Witness for C1 at a concrete credential and environment. -/
theorem refresh_sets_token_and_expiry_witness :
    (testCred.refresh testEnv).cred =
      { testCred with token := some "final-xyz", expiry := some 3600 } ∧
    (testCred.refresh testEnv).result = .ok () :=
  refresh_sets_token_and_expiry testCred testEnv testBootBody testExchangeBody
    "boot-abc" "final-xyz" none (some 3600) .null rfl rfl rfl rfl

/-- C2: when the bootstrap response body lacks `status.token` (a
`KeyError` on the lookup), `refresh` raises `RefreshError` with the
bootstrap no-access-token message, carrying the raw response payload, and
the credential (hence its prior token and expiry) is left unchanged; no
exchange call is sent. -/
theorem refresh_missing_token_raises (c : Credentials) (env : Env) (data : Json)
    (h1 : env.tokenEndpointRequest c.k8s_call = .ok data)
    (h2 : (pySubscript data "status").bind (pySubscript · "token") = .error .keyError) :
    c.refresh env =
      ⟨c, .error (.refreshError "No access token in k8s token response." data),
       [], [c.k8s_call]⟩ := by
  have e1 := make_k8s_keyerr c env data h1 h2
  simp only [Credentials.refresh, e1]

/-- Witness for C2 at a concrete credential and environment. -/
theorem refresh_missing_token_raises_witness :
    testCred.refresh testEnvNoToken =
      ⟨testCred,
       .error (.refreshError "No access token in k8s token response." testBootBodyNoToken),
       [], [testCred.k8s_call]⟩ :=
  refresh_missing_token_raises testCred testEnvNoToken testBootBodyNoToken rfl rfl

/-- C3: a failure in step 1 means the exchange request is never sent (the
only call is the bootstrap call); a failure of either step-2 collaborator
is propagated by `refresh` unchanged and leaves the credential unchanged;
and every failing `refresh` leaves the prior token and expiry unchanged. -/
theorem refresh_failure_frame (c : Credentials) (env : Env) :
    (∀ e, (c.make_k8s_token_request env).result = .error e →
      c.refresh env = ⟨c, .error e, (c.make_k8s_token_request env).printed,
                       [c.k8s_call]⟩) ∧
    (∀ s e, (c.make_k8s_token_request env).result = .ok (.str s) →
      env.tokenEndpointRequest (c.ais_call (b64encodeStr s)) = .error e →
      (c.refresh env).result = .error e ∧ (c.refresh env).cred = c) ∧
    (∀ s d e, (c.make_k8s_token_request env).result = .ok (.str s) →
      env.tokenEndpointRequest (c.ais_call (b64encodeStr s)) = .ok d →
      env.handleRefreshGrantResponse d = .error e →
      (c.refresh env).result = .error e ∧ (c.refresh env).cred = c) ∧
    (∀ e, (c.refresh env).result = .error e →
      (c.refresh env).cred.token = c.token ∧ (c.refresh env).cred.expiry = c.expiry) := by
  refine ⟨?_, ?_, ?_, ?_⟩
  · intro e h
    simp only [Credentials.refresh, h, make_k8s_calls]
  · intro s e h1 h2
    have e2 := make_ais_err1 c s env e h2
    simp [Credentials.refresh, h1, e2]
  · intro s d e h1 h2 h3
    have e2 := make_ais_err2 c s env d e h2 h3
    simp [Credentials.refresh, h1, e2]
  · intro e h
    cases h1 : (c.make_k8s_token_request env).result with
    | error e' => simp [Credentials.refresh, h1]
    | ok t =>
      cases h2 : (c.make_ais_token_request t env).result with
      | error e' => simp [Credentials.refresh, h1, h2]
      | ok p =>
        obtain ⟨tok, exp⟩ := p
        simp only [Credentials.refresh, h1, h2] at h
        exact (Except.noConfusion h)

/-- Witness for C3, exercising all four parts: a step-1 transport
failure, a step-2 transport failure, a step-2 parser failure, and the
general frame condition. -/
theorem refresh_failure_frame_witness :
    (testCred.refresh testEnvBootFail =
      ⟨testCred, .error (.pyError "connection refused"), [], [testCred.k8s_call]⟩) ∧
    ((testCred.refresh testEnvAisFail).result = .error (.refreshError "invalid_grant" .null) ∧
     (testCred.refresh testEnvAisFail).cred = testCred) ∧
    ((testCred.refresh testEnvGrantFail).result = .error (.pyError "malformed") ∧
     (testCred.refresh testEnvGrantFail).cred = testCred) ∧
    ((testCred.refresh testEnvBootFail).cred.token = testCred.token ∧
     (testCred.refresh testEnvBootFail).cred.expiry = testCred.expiry) := by
  refine ⟨?_, ?_, ?_, ?_⟩
  · exact (refresh_failure_frame testCred testEnvBootFail).1
      (.pyError "connection refused") rfl
  · exact (refresh_failure_frame testCred testEnvAisFail).2.1
      "boot-abc" (.refreshError "invalid_grant" .null) rfl rfl
  · exact (refresh_failure_frame testCred testEnvGrantFail).2.2.1
      "boot-abc" testExchangeBody (.pyError "malformed") rfl rfl rfl
  · exact (refresh_failure_frame testCred testEnvBootFail).2.2.2
      (.pyError "connection refused") rfl

/-- C4: whenever step 1 produces a bootstrap token, the exchange request
body is exactly the five fields `grant_type`, `audience`,
`requested_token_type`, `subject_token`, `subject_token_type`, with the
three fixed protocol constants, the configured audience, and the
base64-encoded bootstrap token; the request goes to the exchange
endpoint with no client certificate and the configured exchange CA path. -/
theorem exchange_request_shape (c : Credentials) (env : Env) (s : String)
    (h : (c.make_k8s_token_request env).result = .ok (.str s)) :
    (c.refresh env).calls = [c.k8s_call, c.ais_call (b64encodeStr s)] ∧
    (c.ais_call (b64encodeStr s)).body =
      [("grant_type", "urn:ietf:params:oauth:token-type:token-exchange"),
       ("audience", c.audience),
       ("requested_token_type", "urn:ietf:params:oauth:token-type:access_token"),
       ("subject_token", b64encodeStr s),
       ("subject_token_type", "urn:k8s:params:oauth:token-type:serviceaccount")] ∧
    (c.ais_call (b64encodeStr s)).url = c.ais_token_endpoint ∧
    (c.ais_call (b64encodeStr s)).cert = none ∧
    (c.ais_call (b64encodeStr s)).caPath = c.ais_ca_cert_path := by
  refine ⟨?_, rfl, rfl, rfl, rfl⟩
  simp only [Credentials.refresh, h]
  split <;> simp [make_k8s_calls, make_ais_calls]

/-- Witness for C4 at a concrete credential and environment. -/
theorem exchange_request_shape_witness :
    (testCred.refresh testEnv).calls =
      [testCred.k8s_call, testCred.ais_call (b64encodeStr "boot-abc")] :=
  (exchange_request_shape testCred testEnv "boot-abc" rfl).1

/-- C5: the value placed in the exchange request's `subject_token` field
is the base64 encoding of the UTF-8 bytes of the bootstrap token string,
applied exactly once, so that base64-decoding the `subject_token` value
recovers the original bootstrap token string exactly. -/
theorem subject_token_base64_roundtrip (c : Credentials) (s : String) :
    (c.ais_call (b64encodeStr s)).body.lookup "subject_token" = some (b64encodeStr s) ∧
    b64encodeStr s = ⟨b64encode (utf8Encode s)⟩ ∧
    b64decodeStr (b64encodeStr s) = some s :=
  ⟨rfl, rfl, b64decodeStr_b64encodeStr s⟩

/-- C6: `with_audience a` returns a credential whose audience is `a`,
whose CA/cert/key paths and endpoint URLs are identical to the
original's, and whose token state is unrefreshed, whatever the original's
token state was. -/
theorem with_audience_spec (c : Credentials) (a : String) :
    (c.with_audience a).audience = a ∧
    (c.with_audience a).k8s_ca_cert_path = c.k8s_ca_cert_path ∧
    (c.with_audience a).k8s_cert_path = c.k8s_cert_path ∧
    (c.with_audience a).k8s_key_path = c.k8s_key_path ∧
    (c.with_audience a).k8s_token_endpoint = c.k8s_token_endpoint ∧
    (c.with_audience a).ais_ca_cert_path = c.ais_ca_cert_path ∧
    (c.with_audience a).ais_token_endpoint = c.ais_token_endpoint ∧
    (c.with_audience a).token = none ∧
    (c.with_audience a).expiry = none :=
  ⟨rfl, rfl, rfl, rfl, rfl, rfl, rfl, rfl, rfl⟩

/-- C7: `with_quota_project q` returns a credential whose quota project
id is `q`, whose audience, CA/cert/key paths and endpoint URLs are
identical to the original's, and whose token state is unrefreshed. -/
theorem with_quota_project_spec (c : Credentials) (q : Option String) :
    (c.with_quota_project q).quota_project_id = q ∧
    (c.with_quota_project q).audience = c.audience ∧
    (c.with_quota_project q).k8s_ca_cert_path = c.k8s_ca_cert_path ∧
    (c.with_quota_project q).k8s_cert_path = c.k8s_cert_path ∧
    (c.with_quota_project q).k8s_key_path = c.k8s_key_path ∧
    (c.with_quota_project q).k8s_token_endpoint = c.k8s_token_endpoint ∧
    (c.with_quota_project q).ais_ca_cert_path = c.ais_ca_cert_path ∧
    (c.with_quota_project q).ais_token_endpoint = c.ais_token_endpoint ∧
    (c.with_quota_project q).token = none ∧
    (c.with_quota_project q).expiry = none :=
  ⟨rfl, rfl, rfl, rfl, rfl, rfl, rfl, rfl, rfl, rfl⟩

/-- C8: `refresh` always sends the bootstrap call first, to the
configured bootstrap endpoint, with an empty body, authenticated by the
configured client certificate/key pair, verified against the configured
bootstrap CA path, and with expected success status 201. -/
theorem bootstrap_request_shape (c : Credentials) (env : Env) :
    (c.refresh env).calls.head? = some c.k8s_call ∧
    c.k8s_call.url = c.k8s_token_endpoint ∧
    c.k8s_call.body = [] ∧
    c.k8s_call.headers = none ∧
    c.k8s_call.cert = some (c.k8s_cert_path, c.k8s_key_path) ∧
    c.k8s_call.caPath = c.k8s_ca_cert_path ∧
    c.k8s_call.expectedStatus = some 201 := by
  refine ⟨?_, rfl, rfl, rfl, rfl, rfl, rfl⟩
  simp only [Credentials.refresh]
  split
  · simp [make_k8s_calls]
  · split <;> simp [make_k8s_calls]

/-- C9: whenever both steps succeed, `refresh` prints the raw bootstrap
token and the raw access token, unredacted, to standard output. -/
theorem refresh_prints_raw_tokens (c : Credentials) (env : Env)
    (data d : Json) (s tok : String) (rt : Option String) (exp : Option Nat)
    (extra : Json)
    (h1 : env.tokenEndpointRequest c.k8s_call = .ok data)
    (h2 : (pySubscript data "status").bind (pySubscript · "token") = .ok (.str s))
    (h3 : env.tokenEndpointRequest (c.ais_call (b64encodeStr s)) = .ok d)
    (h4 : env.handleRefreshGrantResponse d = .ok (tok, rt, exp, extra)) :
    (c.refresh env).printed =
      ["received k8s token: " ++ s, "received ais token: " ++ tok] := by
  rw [refresh_ok c env data d s tok rt exp extra h1 h2 h3 h4]

/-- Witness for C9 at a concrete credential and environment. -/
theorem refresh_prints_raw_tokens_witness :
    (testCred.refresh testEnv).printed =
      ["received k8s token: boot-abc", "received ais token: final-xyz"] :=
  refresh_prints_raw_tokens testCred testEnv testBootBody testExchangeBody
    "boot-abc" "final-xyz" none (some 3600) .null rfl rfl rfl rfl

/-- C10: `with_audience` also carries the original's quota project id
over unchanged, and both derivations return a fresh instance built by
`__init__` from the original's configuration fields only (in this pure
embedding neither operation can modify the original). -/
theorem derivation_frame_spec (c : Credentials) (a : String) (q : Option String) :
    (c.with_audience a).quota_project_id = c.quota_project_id ∧
    c.with_audience a =
      Credentials.init c.k8s_ca_cert_path c.k8s_cert_path c.k8s_key_path
        c.k8s_token_endpoint c.ais_ca_cert_path c.ais_token_endpoint a
        c.quota_project_id ∧
    c.with_quota_project q =
      Credentials.init c.k8s_ca_cert_path c.k8s_cert_path c.k8s_key_path
        c.k8s_token_endpoint c.ais_ca_cert_path c.ais_token_endpoint c.audience q :=
  ⟨rfl, rfl, rfl⟩

end GDCH
